import Mathlib

/-!
Verification of `autodist/kernel/synchronization/ps_synchronizer.py`.

This file gives a shallow embedding, in Lean, of the graph-rewriting pass
implemented by `PSSynchronizer` and `PSGradientTaskAssigner`, and proves
properties of the embedded definitions.  Each definition's doc comment cites
the Python source lines it is translated from.
-/

namespace AutoDist

/-- Sentinel task id `PSGradientTaskAssigner.SHARED_TASK_ID` (source line 420),
the default value used when marking a task as shared across devices. -/
def SHARED_TASK_ID : Int := -1

/-- Modelled from the spec: `MAX_INT64` is imported from `autodist.const`
(a module not present under `src/`); the spec describes it as the maximum
allowed step marker, the "accept unconditionally" sentinel, i.e. the largest
signed 64-bit integer. -/
def MAX_INT64 : Int := 2 ^ 63 - 1

/-- Elementwise view of a dense gradient tensor: component `j` of the tensor. -/
abbrev Tensor := Nat → ℚ

/-- `math_ops.add_n` over a list of same-shaped tensors (used at source
line 226): a single sum-reduction over all inputs, modelled as a left fold of
pairwise elementwise addition. -/
def add_n : List Tensor → Tensor
  | [] => fun _ => 0
  | t :: ts => ts.foldl (fun a b => fun i => a i + b i) t

/-- `math_ops.realdiv` of a tensor by the replica count (source line 228). -/
def realdiv (t : Tensor) (n : Nat) : Tensor := fun i => t i / (n : ℚ)

/-- Placement-relevant data of a newly created graph operation: its TF op
type and the device the op was created under. -/
structure OpInfo where
  kind : String
  device : String
deriving DecidableEq

/-- Result of `_get_aggregated_dense_grad`: the two ops it creates and the
value of the aggregated gradient tensor. -/
structure DenseAggResult where
  grad_sum_op : OpInfo
  grad_avg_op : OpInfo
  value : Tensor

/-- `PSSynchronizer._get_aggregated_dense_grad` (source lines 215-229):
fetch the per-replica gradient tensors (`replicaGrad i` is the tensor of
replica `i`, looked up by name-scope substitution), build one `add_n` op
summing all `num_replicas` of them and one `realdiv` op dividing by
`num_replicas`, both created under `ops.device(reduce_to_device)`
(source line 224). -/
def get_aggregated_dense_grad (replicaGrad : Nat → Tensor) (num_replicas : Nat)
    (reduce_device : String) : DenseAggResult :=
  let grad_tensors := (List.range num_replicas).map replicaGrad
  let grad_sum := add_n grad_tensors
  let grad_avg := realdiv grad_sum num_replicas
  { grad_sum_op := { kind := "AddN", device := reduce_device }
    grad_avg_op := { kind := "RealDiv", device := reduce_device }
    value := grad_avg }

/-- The designated reduction device hard-coded by `in_graph_apply`
(source line 49): the CPU device local to the current worker. -/
def reduce_to_device : String := "/device:CPU:0"

/-- Error raised by `PSGradientTaskAssigner.__assign_task` when an op has no
placement reference (source line 494); the spec names it
`NoPlacementReference`. -/
inductive PSAssignError where
  | noPlacementReference
deriving DecidableEq

/-- Task-resolution part of `PSGradientTaskAssigner.__assign_task`
(source lines 488-509), the value recorded in `op_to_task`.  The input is the
set of reference tasks (`unique_tasks = set(placement_reference_tasks)`).
`set.pop()` on a singleton set returns its unique element, modelled with
`Finset.min'`.  If the set is empty a `NoPlacementReference` error is raised;
if it has one element that element is taken; otherwise the `SHARED_TASK_ID`
sentinel is removed and, if exactly one concrete task remains, that task is
taken, else the sentinel itself is recorded. -/
def assign_task (R : Finset Int) : Except PSAssignError Int :=
  if hR : R.Nonempty then
    if R.card = 1 then .ok (R.min' hR)
    else
      if hc : (R.erase SHARED_TASK_ID).card = 1 then
        .ok ((R.erase SHARED_TASK_ID).min' (Finset.card_pos.mp (by omega)))
      else .ok SHARED_TASK_ID
  else .error .noPlacementReference

/-- Structured device specifier (`device_spec.DeviceSpecV2`), restricted to
the fields this pass reads or writes. -/
structure DeviceSpecModel where
  job : String
  replica : Int
  task : Int
  device_type : String
deriving DecidableEq

/-- `DeviceSpecV2.replace(task=t)` as used at source line 517: field-wise
override of the task, preserving the other fields. -/
def DeviceSpecModel.replaceTask (d : DeviceSpecModel) (t : Int) : DeviceSpecModel :=
  { d with task := t }

/-- Outcome of one `__assign_task` call: the task recorded in `op_to_task`
(which may be the `SHARED_TASK_ID` sentinel, source line 509) and the device
written onto the op by `curr_op._set_device` (source line 518). -/
structure AssignTaskResult where
  recorded_task : Int
  device : DeviceSpecModel
deriving DecidableEq

/-- `PSGradientTaskAssigner.__assign_task` in full (source lines 488-518):
resolve the task from the reference set, then post-process — a resolved
`SHARED_TASK_ID` becomes task `0` (source lines 512-515) — and set the op's
device to the PS device with the task field replaced (source lines 517-518). -/
def assign_task_and_place (R : Finset Int) (ps_device : DeviceSpecModel) :
    Except PSAssignError AssignTaskResult :=
  (assign_task R).map (fun t =>
    let curr_op_task := if t = SHARED_TASK_ID then 0 else t
    { recorded_task := t, device := ps_device.replaceTask curr_op_task })

/-- Nodes of the per-value synchronization subgraph built by
`between_graph_apply`/`add_sync_op`/`_get_queue_ops`:
the worker's local (already replica-aggregated) gradient, the cross-worker
accumulator's apply and take ops, the variable update op, and the queue ops
created by `_get_queue_ops` (an enqueue into worker `i`'s queue, the chief's
no-op for its own slot, or a dequeue of worker `i`'s own slot). -/
inductive SNode where
  | localGrad
  | accumApply
  | takeGrad
  | varUpdate
  | enqueueTo (i : Nat)
  | chiefNoop
  | dequeueAt (i : Nat)
deriving DecidableEq

/-- Direct dependency edges among the synchronization ops, read off the
source:
* the accumulator apply consumes the local gradient (source lines 324-326 and
  342-344);
* the take op has no graph edge to the applies in `_get_accum_apply_and_agg_grad`
  (release-after-count is runtime accumulator semantics, source lines 327, 345);
* the variable update op consumes the taken aggregated gradient, because
  `update_consumers` rewires the gradient's consumers to `agg_grad`
  (source lines 329 and 354-355);
* the queue ops carry the control dependencies set in `_get_queue_ops`: on the
  chief, `[accum_apply_op, var_update_op]` when the value is trainable and
  `[var_update_op]` otherwise (source lines 192-204, covering both the
  enqueues and the chief's no-op); on a non-chief, `[accum_apply_op]` when
  trainable and nothing otherwise (source lines 206-211). -/
def sdeps (is_trainable : Bool) : SNode → List SNode
  | .localGrad => []
  | .accumApply => [.localGrad]
  | .takeGrad => []
  | .varUpdate => [.takeGrad]
  | .enqueueTo _ => if is_trainable then [.accumApply, .varUpdate] else [.varUpdate]
  | .chiefNoop => if is_trainable then [.accumApply, .varUpdate] else [.varUpdate]
  | .dequeueAt _ => if is_trainable then [.accumApply] else []

/-- Fuel-bounded collection of all (transitive) dependencies of a node. -/
def ancestorsF (is_trainable : Bool) : Nat → SNode → List SNode
  | 0, _ => []
  | k + 1, n =>
      (sdeps is_trainable n).foldr (fun d acc => d :: (ancestorsF is_trainable k d ++ acc)) []

/-- Transitive dependency closure of a synchronization op.  The dependency
graph of `sdeps` has depth at most 3, so fuel 4 computes the full set of
ancestors: an op executes only after every node in `ancestors` has
completed. -/
def ancestors (is_trainable : Bool) (n : SNode) : List SNode :=
  ancestorsF is_trainable 4 n

/-- One of the `data_flow_ops.FIFOQueue`s created at source lines 184-188:
per-value, per-worker rendezvous queue with its capacity and worker slot. -/
structure FIFOQueueModel where
  capacity : Nat
  slot : Nat
deriving DecidableEq

/-- The `var_update_sync_queues` list (source lines 184-188): one queue of
capacity 1 per worker. -/
def var_update_sync_queues (num_workers : Nat) : List FIFOQueueModel :=
  (List.range num_workers).map (fun i => { capacity := 1, slot := i })

/-- `PSSynchronizer._get_queue_ops` (source lines 181-213), at the level of
which queue ops this worker creates: the chief (`is_chief`) walks all worker
queues, enqueueing a token into every other worker's queue and creating a
no-op for its own slot (source lines 200-204); a non-chief creates the single
dequeue of its own slot (source lines 206-212). -/
def get_queue_ops (num_workers worker_id : Nat) (is_chief : Bool) : List SNode :=
  if is_chief then
    (List.range num_workers).map (fun i =>
      if i ≠ worker_id then .enqueueTo i else .chiefNoop)
  else
    [.dequeueAt worker_id]

/-- Control-consumer sets passed to the two `_update_gradient_consumers`
calls of the sparse branch of `in_graph_apply` (source lines 69-85), given
the original control-consumer sets of the indices and values halves (after
mapping into the new graph).  The first component is the set migrated for the
indices half — its full original set (source lines 76-78) — and the second is
the set migrated for the values half — the set-difference
`set(values_cc_ops).difference(indices_cc_ops)` (source lines 81-83). -/
def sparse_ctrl_migrations (indices_cc values_cc : Finset Nat) :
    Finset Nat × Finset Nat :=
  (indices_cc, values_cc \ indices_cc)

/-- The migration discipline asserted by the spec for a sparse gradient:
the values half is migrated first with its full original control-consumer
set, and the indices half then receives its original set minus those already
migrated for the values half. -/
def values_first_migration (indices_cc values_cc : Finset Nat) : Prop :=
  (sparse_ctrl_migrations indices_cc values_cc).2 = values_cc ∧
  (sparse_ctrl_migrations indices_cc values_cc).1 =
    indices_cc \ (sparse_ctrl_migrations indices_cc values_cc).2

/-- The dense / sparse distinction of a gradient representation, as
dispatched by `isinstance` checks in the source. -/
inductive GradKind where
  | dense
  | sparse
deriving DecidableEq

/-- An accumulator `apply` op with the local-step marker it was created with
(`local_step` argument of `apply_grad` / `apply_indexed_slices_grad`). -/
structure AccumApplyModel where
  localStep : Int
deriving DecidableEq

/-- An accumulator `take` op: the expected-contribution count passed to
`take_grad` / `take_indexed_slices_grad`, and whether the take was created
under `ops.control_dependencies` on the apply ops. -/
structure TakeModel where
  count : Nat
  afterApplies : Bool
deriving DecidableEq

/-- Result of `_get_aggregated_sparse_grad`: the in-graph sparse accumulator's
apply ops (one per replica) and its take op. -/
structure SparseInGraphAgg where
  applyOps : List AccumApplyModel
  takeOp : TakeModel
deriving DecidableEq

/-- `PSSynchronizer._get_aggregated_sparse_grad` (source lines 231-293):
one `SparseConditionalAccumulator` is created on the reduction device; each
of the `num_replicas` per-replica indexed-slices gradients is applied with
local step `MAX_INT64` (source lines 261-267); the combined gradient is taken
with expected count `num_replicas`, under control dependencies on all the
apply ops (source lines 268-270). -/
def get_aggregated_sparse_grad (num_replicas : Nat) : SparseInGraphAgg :=
  { applyOps := (List.range num_replicas).map (fun _ => { localStep := MAX_INT64 })
    takeOp := { count := num_replicas, afterApplies := true } }

/-- Result of `_get_accum_apply_and_agg_grad`: which kind of accumulator was
built, its single apply op, and the expected count of its take op. -/
structure BetweenAccumResult where
  kind : GradKind
  applyOp : AccumApplyModel
  takeCount : Nat
deriving DecidableEq

/-- Inner function `_get_accum_apply_and_agg_grad` of
`PSSynchronizer._get_accumulation_ops` (source lines 315-360): for a dense
gradient, a `ConditionalAccumulator` with one `apply_grad` at local step
`MAX_INT64` (source lines 324-326) and a `take_grad` expecting `num_workers`
contributions (source lines 327-328); for a sparse gradient, a
`SparseConditionalAccumulator` with one `apply_indexed_slices_grad` at local
step `MAX_INT64` (source lines 342-344) and a `take_indexed_slices_grad`
expecting `num_workers` contributions (source lines 345-346). -/
def get_accum_apply_and_agg_grad (kind : GradKind) (num_workers : Nat) :
    BetweenAccumResult :=
  match kind with
  | .dense => { kind := .dense, applyOp := { localStep := MAX_INT64 }, takeCount := num_workers }
  | .sparse => { kind := .sparse, applyOp := { localStep := MAX_INT64 }, takeCount := num_workers }

/-- All accumulator take ops created during the full rewrite of one value
with the given gradient kind, tagged with the gradient kind they serve:
the in-graph pass creates a sparse-accumulator take only for a sparse
gradient (`_get_aggregated_sparse_grad`, source line 270; the dense in-graph
path uses `add_n`, no accumulator), and the between-graph pass always creates
one take via `_get_accum_apply_and_agg_grad` (source lines 327, 345). -/
def rewrite_take_ops (kind : GradKind) (num_workers num_replicas : Nat) :
    List (GradKind × Nat) :=
  (match kind with
   | .dense => []
   | .sparse => [(GradKind.sparse, (get_aggregated_sparse_grad num_replicas).takeOp.count)])
  ++ [(kind, (get_accum_apply_and_agg_grad kind num_workers).takeCount)]

/-- A gradient object as dispatched by `in_graph_apply` (source lines 53-87)
and `_replicate_variable_to_devices` (source line 298): an `ops.Tensor`
(dense, with its per-replica tensor lookup and the control-consumer set of
the gradient op), an `ops.IndexedSlices` (sparse, with the control-consumer
sets of its indices and values ops), or any other Python object. -/
inductive GradObj where
  | tensor (replicaGrad : Nat → Tensor) (grad_cc : Finset Nat)
  | indexedSlices (indices_cc values_cc : Finset Nat)
  | other

/-- Errors `in_graph_apply` can raise: the failed `assert` at source line 50,
and the `RuntimeError("Incorrect grad.")` at source line 87, which the spec
names `InvalidGradientKind`. -/
inductive RewriteError where
  | assertionFailed
  | invalidGradientKind
deriving DecidableEq

/-- Artifacts of a successful `in_graph_apply` call: the dense aggregation
ops (dense case), the in-graph sparse accumulator (sparse case), and the
control-consumer sets passed to the `_update_gradient_consumers` calls, in
call order. -/
structure InGraphResult where
  denseAgg : Option DenseAggResult
  sparseAgg : Option SparseInGraphAgg
  migrations : List (Finset Nat)

/-- `PSSynchronizer.in_graph_apply` (source lines 34-87): assert the target
is a trainable variable (line 50); for a dense gradient build the
sum-and-divide aggregation on the reduction device and migrate the gradient's
consumers (lines 53-64); for a sparse gradient build the in-graph sparse
accumulator and migrate the two halves' consumers, the indices half with its
full control-consumer set and the values half with the difference
(lines 65-85); for anything else raise the invalid-gradient error with no
aggregation ops created and no consumers rewired (lines 86-87). -/
def in_graph_apply (num_replicas : Nat) (target_trainable : Bool) (grad : GradObj) :
    Except RewriteError InGraphResult :=
  if target_trainable then
    match grad with
    | .tensor g cc =>
        .ok { denseAgg := some (get_aggregated_dense_grad g num_replicas reduce_to_device)
              sparseAgg := none
              migrations := [cc] }
    | .indexedSlices icc vcc =>
        .ok { denseAgg := none
              sparseAgg := some (get_aggregated_sparse_grad num_replicas)
              migrations := [(sparse_ctrl_migrations icc vcc).1,
                             (sparse_ctrl_migrations icc vcc).2] }
    | .other => .error .invalidGradientKind
  else .error .assertionFailed

/-- Result of `_get_accumulation_ops`: the keys of the returned
`var_op_to_agg_grad` and `var_op_to_accum_apply_op` maps, the single
between-worker accumulator built (if any), and whether the skip diagnostic
was logged. -/
structure AccumulationOpsResult where
  agg_grad_keys : List String
  accum_apply_keys : List String
  accum : Option BetweenAccumResult
  logged_skip : Bool
deriving DecidableEq

/-- `PSSynchronizer._get_accumulation_ops` (source lines 313-391): when the
target's producing op is not in the trainable-variable registry, log the
diagnostic and return two empty maps with no ops created (source
lines 368-373); otherwise call `_get_accum_apply_and_agg_grad` exactly once,
creating one accumulator with its apply and take ops, and return singleton
maps keyed by the target op (source lines 375-391). -/
def get_accumulation_ops (registry : Finset String) (target_op : String)
    (kind : GradKind) (num_workers : Nat) : AccumulationOpsResult :=
  if target_op ∉ registry then
    { agg_grad_keys := [], accum_apply_keys := [], accum := none, logged_skip := true }
  else
    { agg_grad_keys := [target_op]
      accum_apply_keys := [target_op]
      accum := some (get_accum_apply_and_agg_grad kind num_workers)
      logged_skip := false }

/-- A `ResourceVariableReplicator` handle with the number of local mirror
variables it built (`build_mirror_vars(mirror_var_device,
num_replicas_per_worker)`, source lines 307-309). -/
structure ReplicatorModel where
  mirror_count : Nat
deriving DecidableEq

/-- `PSSynchronizer._replicate_variable_to_devices` (source lines 295-311):
for any gradient that is not an `ops.Tensor` it returns `None` immediately,
building no mirror variables (source lines 298-300); for a dense gradient it
builds `num_replicas_per_worker` mirror variables and returns the
replicator. -/
def replicate_variable_to_devices (gradient : GradObj)
    (num_replicas_per_worker : Nat) : Option ReplicatorModel :=
  match gradient with
  | .tensor _ _ => some { mirror_count := num_replicas_per_worker }
  | _ => none

/-- The `variable_replicator` computed and returned by
`PSSynchronizer.between_graph_apply` (source lines 103-107, 115): `None`
unless local replication is enabled and `_replicate_variable_to_devices`
returned a replicator. -/
def between_graph_apply_replicator (local_replication : Bool)
    (gradient : GradObj) (num_replicas : Nat) : Option ReplicatorModel :=
  if local_replication then replicate_variable_to_devices gradient num_replicas
  else none

instance {ε α : Type} [DecidableEq ε] [DecidableEq α] : DecidableEq (Except ε α) :=
  fun a b =>
    match a, b with
    | .error e1, .error e2 =>
        if h : e1 = e2 then .isTrue (by rw [h]) else .isFalse (by simp [h])
    | .error _, .ok _ => .isFalse (by simp)
    | .ok _, .error _ => .isFalse (by simp)
    | .ok a1, .ok a2 =>
        if h : a1 = a2 then .isTrue (by rw [h]) else .isFalse (by simp [h])

theorem add_n_foldl_apply (ts : List Tensor) (t : Tensor) (j : Nat) :
    (ts.foldl (fun a b => fun i => a i + b i) t) j
      = t j + (ts.map (fun u => u j)).sum := by
  induction ts generalizing t with
  | nil => simp
  | cons u rest ih => simp [ih, add_assoc]

theorem add_n_apply (ts : List Tensor) (j : Nat) :
    add_n ts j = (ts.map (fun u => u j)).sum := by
  cases ts with
  | nil => simp [add_n]
  | cons t rest => simp [add_n, add_n_foldl_apply]

theorem list_range_map_sum (g : Nat → ℚ) (n : Nat) :
    ((List.range n).map g).sum = ∑ i in Finset.range n, g i := by
  induction n with
  | zero => simp
  | succ n ih => simp [List.range_succ, Finset.sum_range_succ, ih]

theorem min'_congr (s t : Finset Int) (h : s = t) (hs : s.Nonempty) :
    s.min' hs = t.min' (h ▸ hs) := by
  subst h; rfl

/-- Claim C1: for every trainable value with a dense gradient and every
replica count `N ≥ 1`, the aggregated gradient built by
`_get_aggregated_dense_grad` equals the elementwise sum of the `N`
per-replica gradient tensors divided by `N`, computed as a single `add_n`
sum-reduction followed by one divide-by-`N`, with both new ops placed on the
designated reduction device (the local CPU device), not on the per-replica
devices. -/
theorem C1_dense_aggregation (g : Nat → Tensor) (devs : Nat → String)
    (N j i : Nat) (hN : 1 ≤ N) (hi : i < N)
    (hdev : ∀ k, k < N → devs k ≠ reduce_to_device) :
    (get_aggregated_dense_grad g N reduce_to_device).value j
      = (∑ k in Finset.range N, g k j) / (N : ℚ) ∧
    (get_aggregated_dense_grad g N reduce_to_device).grad_sum_op.device
      = reduce_to_device ∧
    (get_aggregated_dense_grad g N reduce_to_device).grad_avg_op.device
      = reduce_to_device ∧
    (get_aggregated_dense_grad g N reduce_to_device).grad_sum_op.device ≠ devs i ∧
    (get_aggregated_dense_grad g N reduce_to_device).grad_avg_op.device ≠ devs i := by
  refine ⟨?_, rfl, rfl, ?_, ?_⟩
  · show realdiv (add_n ((List.range N).map g)) N j = _
    simp [realdiv, add_n_apply, List.map_map, Function.comp, list_range_map_sum]
  · show reduce_to_device ≠ devs i
    exact (hdev i hi).symm
  · show reduce_to_device ≠ devs i
    exact (hdev i hi).symm

def g0 : Nat → Tensor := fun i => fun j => (i : ℚ) + j

def devs0 : Nat → String := fun _ => "/device:GPU:0"

theorem C1_witness :
    ((1 : Nat) ≤ 2 ∧ (0 : Nat) < 2 ∧ (∀ k, k < 2 → devs0 k ≠ reduce_to_device)) ∧
    ((get_aggregated_dense_grad g0 2 reduce_to_device).value 5
        = (∑ k in Finset.range 2, g0 k 5) / (2 : ℚ) ∧
      (get_aggregated_dense_grad g0 2 reduce_to_device).grad_sum_op.device
        = reduce_to_device ∧
      (get_aggregated_dense_grad g0 2 reduce_to_device).grad_avg_op.device
        = reduce_to_device ∧
      (get_aggregated_dense_grad g0 2 reduce_to_device).grad_sum_op.device ≠ devs0 0 ∧
      (get_aggregated_dense_grad g0 2 reduce_to_device).grad_avg_op.device ≠ devs0 0) :=
  ⟨⟨by decide, by decide, by decide⟩,
    C1_dense_aggregation g0 devs0 2 5 0 (by decide) (by decide) (by decide)⟩

/-- Claim C2: for every op in the placement-bounded subgraph with reference
task set `R`, `__assign_task` assigns: if `R` has exactly one task, that
task; if `R` contains the `SHARED` sentinel plus exactly one concrete task,
that concrete task; if `R` contains two or more distinct concrete tasks, the
`SHARED` sentinel; and if `R` is empty it raises a fatal
`NoPlacementReference` error instead of assigning anything. -/
theorem C2_assign_task_resolution (R : Finset Int) :
    (R = ∅ → assign_task R = .error .noPlacementReference) ∧
    (∀ t, R = {t} → assign_task R = .ok t) ∧
    (∀ t, t ≠ SHARED_TASK_ID → R = {SHARED_TASK_ID, t} → assign_task R = .ok t) ∧
    (2 ≤ (R.erase SHARED_TASK_ID).card → assign_task R = .ok SHARED_TASK_ID) := by
  refine ⟨?_, ?_, ?_, ?_⟩
  · intro h; subst h
    unfold assign_task
    rw [dif_neg (by simp [Finset.not_nonempty_empty])]
  · intro t h; subst h
    unfold assign_task
    rw [dif_pos (Finset.singleton_nonempty t), if_pos (Finset.card_singleton t),
      Finset.min'_singleton]
  · intro t ht h; subst h
    have hmem : SHARED_TASK_ID ∉ ({t} : Finset Int) := by
      simp only [Finset.mem_singleton]
      exact fun h2 => ht h2.symm
    have hcard : ({SHARED_TASK_ID, t} : Finset Int).card = 2 := by
      rw [show ({SHARED_TASK_ID, t} : Finset Int) = insert SHARED_TASK_ID {t} from rfl,
        Finset.card_insert_of_not_mem hmem, Finset.card_singleton]
    have herase : ({SHARED_TASK_ID, t} : Finset Int).erase SHARED_TASK_ID = {t} :=
      Finset.erase_insert hmem
    have hec : (({SHARED_TASK_ID, t} : Finset Int).erase SHARED_TASK_ID).card = 1 := by
      rw [herase, Finset.card_singleton]
    unfold assign_task
    rw [dif_pos (Finset.insert_nonempty _ _), if_neg (by omega), dif_pos hec,
      min'_congr _ _ herase, Finset.min'_singleton]
  · intro h2
    have hsub : R.erase SHARED_TASK_ID ⊆ R := Finset.erase_subset _ _
    have hne : R.Nonempty :=
      Finset.Nonempty.mono hsub (Finset.card_pos.mp (by omega))
    have hcle : (R.erase SHARED_TASK_ID).card ≤ R.card := Finset.card_le_card hsub
    unfold assign_task
    rw [dif_pos hne, if_neg (by omega), dif_neg (by omega)]

theorem C2_witness :
    assign_task ∅ = .error .noPlacementReference ∧
    assign_task {3} = .ok 3 ∧
    assign_task {SHARED_TASK_ID, 4} = .ok 4 ∧
    assign_task {1, 2} = .ok SHARED_TASK_ID :=
  ⟨(C2_assign_task_resolution ∅).1 rfl,
    (C2_assign_task_resolution {3}).2.1 3 rfl,
    (C2_assign_task_resolution {SHARED_TASK_ID, 4}).2.2.1 4 (by decide) rfl,
    (C2_assign_task_resolution {1, 2}).2.2.2 (by decide)⟩

/-- Claim C6: after the task-assignment pass completes without error, every
operation's device specifier carries a concrete (non-`SHARED`) task: each
`__assign_task` call writes a device whose task field is never the `SHARED`
sentinel, an op whose reference tasks resolved to `SHARED` has its device set
to task `0`, and the remaining device fields are preserved from the PS device
specifier. -/
theorem C6_shared_resolved_to_zero (R : Finset Int) (ps : DeviceSpecModel)
    (res : AssignTaskResult) (h : assign_task_and_place R ps = .ok res) :
    res.device.task ≠ SHARED_TASK_ID ∧
    (res.recorded_task = SHARED_TASK_ID → res.device.task = 0) ∧
    (res.recorded_task ≠ SHARED_TASK_ID → res.device.task = res.recorded_task) ∧
    res.device.job = ps.job ∧ res.device.replica = ps.replica ∧
    res.device.device_type = ps.device_type := by
  unfold assign_task_and_place at h
  cases he : assign_task R with
  | error e => rw [he] at h; simp [Except.map] at h
  | ok t =>
      rw [he] at h
      simp only [Except.map] at h
      rw [Except.ok.injEq] at h
      subst h
      refine ⟨?_, ?_, ?_, rfl, rfl, rfl⟩
      · show (if t = SHARED_TASK_ID then 0 else t) ≠ SHARED_TASK_ID
        split_ifs with ht
        · decide
        · exact ht
      · intro ht
        show (if t = SHARED_TASK_ID then 0 else t) = 0
        rw [if_pos ht]
      · intro ht
        show (if t = SHARED_TASK_ID then 0 else t) = t
        rw [if_neg ht]

def ps0 : DeviceSpecModel := { job := "ps", replica := 0, task := 7, device_type := "CPU" }

theorem C6_witness :
    assign_task_and_place {SHARED_TASK_ID} ps0
      = .ok { recorded_task := SHARED_TASK_ID, device := ps0.replaceTask 0 } ∧
    ({ recorded_task := SHARED_TASK_ID, device := ps0.replaceTask 0 } :
        AssignTaskResult).device.task ≠ SHARED_TASK_ID :=
  ⟨by decide,
    (C6_shared_resolved_to_zero {SHARED_TASK_ID} ps0 _ (by decide)).1⟩

/-- Claim C3 counterexample: the claim states that the values half of a
sparse gradient is migrated first with its full control-consumer set, and the
indices half receives the set-difference from those already migrated for the
values half.  With both halves sharing the single control-consumer `0`, the
code migrates the full set for the *indices* half and the empty difference
for the *values* half (source lines 76-85), so the claimed discipline fails
at this input. -/
theorem C3_counterexample : ¬ values_first_migration {0} {0} := by
  unfold values_first_migration
  decide

/-- Claim C3 (amended): when rewiring a sparse gradient in `in_graph_apply`,
the indices half is migrated first with its full set of original
control-consumers, and the set migrated for the values half is exactly the
set-difference of the values half's original control-consumers from those
already migrated for the indices half, so that no control-consumer shared by
both halves receives a duplicate migrated control edge. -/
theorem C3_migration_difference_amended (num_replicas : Nat)
    (icc vcc : Finset Nat) (r : InGraphResult)
    (h : in_graph_apply num_replicas true (GradObj.indexedSlices icc vcc) = .ok r) :
    r.migrations = [icc, vcc \ icc] ∧ Disjoint icc (vcc \ icc) := by
  unfold in_graph_apply at h
  rw [if_pos rfl, Except.ok.injEq] at h
  subst h
  exact ⟨rfl, Finset.disjoint_sdiff⟩

theorem C3_witness :
    in_graph_apply 1 true (GradObj.indexedSlices {0} {0, 1}) = .ok
      { denseAgg := none, sparseAgg := some (get_aggregated_sparse_grad 1),
        migrations := [{0}, ({0, 1} : Finset Nat) \ {0}] } ∧
    (({ denseAgg := none, sparseAgg := some (get_aggregated_sparse_grad 1),
        migrations := [{0}, ({0, 1} : Finset Nat) \ {0}] } : InGraphResult).migrations
        = [{0}, ({0, 1} : Finset Nat) \ {0}] ∧
      Disjoint ({0} : Finset Nat) (({0, 1} : Finset Nat) \ {0})) :=
  ⟨rfl, C3_migration_difference_amended 1 {0} {0, 1} _ rfl⟩

/-- Claim C4 counterexample: on a non-chief worker (worker 1 of 2, trainable
value) the single dequeue created by `_get_queue_ops` has the accumulator's
*apply* op as its only control dependency (source lines 207-209), so the
accumulator's take op is not among the dequeue's transitive dependencies —
the dequeue is not ordered after the take's completion, contrary to the
claim. -/
theorem C4_counterexample :
    get_queue_ops 2 1 false = [SNode.dequeueAt 1] ∧
    SNode.takeGrad ∉ ancestors true (SNode.dequeueAt 1) := by decide

/-- Claim C4 (amended): for every trainable value, on the chief (worker id 0)
the enqueue of one token into each non-chief worker's capacity-1 queue (plus
the no-op for the chief's own slot) executes only after the accumulator apply,
the local variable update op, and — through the update op's consumption of
the taken gradient — the accumulator take complete; on a non-chief worker the
single dequeue of its own slot executes only after the accumulator's *apply*
(that worker's own contribution) completes, not after the take. -/
theorem C4_queue_ordering_amended (num_workers worker_id : Nat)
    (hw : worker_id < num_workers) :
    (∀ q ∈ var_update_sync_queues num_workers, q.capacity = 1) ∧
    (worker_id = 0 →
      get_queue_ops num_workers worker_id true
        = (List.range num_workers).map
            (fun i => if i ≠ worker_id then SNode.enqueueTo i else SNode.chiefNoop) ∧
      (∀ op ∈ get_queue_ops num_workers worker_id true,
        SNode.accumApply ∈ ancestors true op ∧
        SNode.varUpdate ∈ ancestors true op ∧
        SNode.takeGrad ∈ ancestors true op)) ∧
    (worker_id ≠ 0 →
      get_queue_ops num_workers worker_id false = [SNode.dequeueAt worker_id] ∧
      SNode.accumApply ∈ ancestors true (SNode.dequeueAt worker_id)) := by
  refine ⟨?_, ?_, ?_⟩
  · intro q hq
    unfold var_update_sync_queues at hq
    obtain ⟨i, hi, rfl⟩ := List.mem_map.mp hq
    rfl
  · intro h0
    refine ⟨rfl, ?_⟩
    intro op hop
    unfold get_queue_ops at hop
    rw [if_pos rfl] at hop
    obtain ⟨i, hi, rfl⟩ := List.mem_map.mp hop
    by_cases hiw : i ≠ worker_id
    · rw [if_pos hiw]
      have he : ancestors true (SNode.enqueueTo i)
          = [SNode.accumApply, SNode.localGrad, SNode.varUpdate, SNode.takeGrad] := rfl
      rw [he]
      decide
    · rw [if_neg hiw]
      have hn : ancestors true SNode.chiefNoop
          = [SNode.accumApply, SNode.localGrad, SNode.varUpdate, SNode.takeGrad] := rfl
      rw [hn]
      decide
  · intro hne
    refine ⟨rfl, ?_⟩
    have hd : ancestors true (SNode.dequeueAt worker_id)
        = [SNode.accumApply, SNode.localGrad] := rfl
    rw [hd]
    decide

theorem C4_witness :
    ({ capacity := 1, slot := 0 } : FIFOQueueModel).capacity = 1 ∧
    (get_queue_ops 2 1 false = [SNode.dequeueAt 1] ∧
      SNode.accumApply ∈ ancestors true (SNode.dequeueAt 1)) ∧
    (SNode.accumApply ∈ ancestors true (SNode.enqueueTo 1) ∧
      SNode.varUpdate ∈ ancestors true (SNode.enqueueTo 1) ∧
      SNode.takeGrad ∈ ancestors true (SNode.enqueueTo 1)) :=
  ⟨(C4_queue_ordering_amended 2 1 (by decide)).1 { capacity := 1, slot := 0 } (by decide),
    (C4_queue_ordering_amended 2 1 (by decide)).2.2 (by decide),
    ((C4_queue_ordering_amended 2 0 (by decide)).2.1 rfl).2 (SNode.enqueueTo 1) (by decide)⟩

/-- Claim C5 counterexample: with 2 workers and 3 replicas and a sparse
gradient, the rewrite creates a between-worker accumulator take op tagged
sparse with expected count `num_workers = 2` (source lines 345-346), not
`num_replicas = 3` as the claim requires for sparse gradients. -/
theorem C5_counterexample :
    (GradKind.sparse, 2) ∈ rewrite_take_ops GradKind.sparse 2 3 ∧
    (GradKind.sparse, 2).2 ≠ 3 := by decide

/-- Claim C5 (amended): take ops created by the in-graph sparse aggregation
expect exactly `num_replicas` contributions, while take ops created by the
between-worker accumulation expect exactly `num_workers` contributions for
both dense and sparse gradients; the combined gradient is released only after
that many apply calls. -/
theorem C5_take_counts_amended (kind : GradKind) (num_workers num_replicas : Nat) :
    (get_aggregated_sparse_grad num_replicas).takeOp.count = num_replicas ∧
    (get_accum_apply_and_agg_grad kind num_workers).takeCount = num_workers ∧
    rewrite_take_ops GradKind.sparse num_workers num_replicas
      = [(GradKind.sparse, num_replicas), (GradKind.sparse, num_workers)] ∧
    rewrite_take_ops GradKind.dense num_workers num_replicas
      = [(GradKind.dense, num_workers)] := by
  cases kind <;> exact ⟨rfl, rfl, rfl, rfl⟩

/-- Claim C7: `in_graph_apply` raises the fatal `InvalidGradientKind` error
if and only if the gradient argument is neither a dense tensor nor a sparse
(values, indices, dense_shape) triple; in that case no `InGraphResult` is
produced, so the rewrite for that value is aborted with no aggregation ops
created and no consumers rewired, and the error propagates without retry. -/
theorem C7_invalid_gradient_kind (num_replicas : Nat) (grad : GradObj) :
    in_graph_apply num_replicas true grad = .error .invalidGradientKind
      ↔ grad = .other := by
  cases grad with
  | tensor g cc => simp [in_graph_apply]
  | indexedSlices icc vcc => simp [in_graph_apply]
  | other => simp [in_graph_apply]

/-- Claim C8: when the target value's producing op is not in the
trainable-value registry, `_get_accumulation_ops` creates no accumulator and
no apply/take ops, logs the diagnostic, and returns empty maps; when the op
is in the registry, exactly one accumulator (with its apply and take ops) is
created and the returned maps are singletons keyed by the target op. -/
theorem C8_accumulation_registry (registry : Finset String) (t : String)
    (kind : GradKind) (num_workers : Nat) :
    (t ∉ registry → get_accumulation_ops registry t kind num_workers
        = { agg_grad_keys := [], accum_apply_keys := [], accum := none,
            logged_skip := true }) ∧
    (t ∈ registry → get_accumulation_ops registry t kind num_workers
        = { agg_grad_keys := [t], accum_apply_keys := [t],
            accum := some (get_accum_apply_and_agg_grad kind num_workers),
            logged_skip := false }) := by
  constructor
  · intro h
    unfold get_accumulation_ops
    rw [if_pos h]
  · intro h
    unfold get_accumulation_ops
    rw [if_neg (not_not_intro h)]

theorem C8_witness :
    get_accumulation_ops {"w"} "v" GradKind.dense 2
      = { agg_grad_keys := [], accum_apply_keys := [], accum := none,
          logged_skip := true } ∧
    get_accumulation_ops {"w"} "w" GradKind.dense 2
      = { agg_grad_keys := ["w"], accum_apply_keys := ["w"],
          accum := some (get_accum_apply_and_agg_grad GradKind.dense 2),
          logged_skip := false } :=
  ⟨(C8_accumulation_registry {"w"} "v" GradKind.dense 2).1 (by decide),
    (C8_accumulation_registry {"w"} "w" GradKind.dense 2).2 (by decide)⟩

/-- Claim C9: every accumulator apply op created anywhere in the rewrite —
the per-replica applies of the in-graph sparse aggregation and the single
apply of the between-worker accumulation, dense or sparse — is created with
local step `MAX_INT64`, the "accept unconditionally" sentinel, so no
contribution is ever rejected for step skew. -/
theorem C9_step_marker (num_replicas num_workers : Nat) (kind : GradKind)
    (a : AccumApplyModel)
    (ha : a ∈ (get_aggregated_sparse_grad num_replicas).applyOps) :
    a.localStep = MAX_INT64 ∧
    (get_accum_apply_and_agg_grad kind num_workers).applyOp.localStep = MAX_INT64 := by
  constructor
  · unfold get_aggregated_sparse_grad at ha
    obtain ⟨i, hi, he⟩ := List.mem_map.mp ha
    subst he
    rfl
  · cases kind <;> rfl

theorem C9_witness :
    ({ localStep := MAX_INT64 } : AccumApplyModel)
        ∈ (get_aggregated_sparse_grad 1).applyOps ∧
    (({ localStep := MAX_INT64 } : AccumApplyModel).localStep = MAX_INT64 ∧
      (get_accum_apply_and_agg_grad GradKind.dense 2).applyOp.localStep
        = MAX_INT64) :=
  ⟨by decide, C9_step_marker 1 2 GradKind.dense { localStep := MAX_INT64 } (by decide)⟩

/-- Claim C10: for every gradient that is not a dense tensor,
`_replicate_variable_to_devices` returns `None` without building any mirror
variables, so `between_graph_apply` never performs local-device replication
for a sparse value even when local replication is enabled, and returns `None`
as the replicator. -/
theorem C10_no_sparse_replication (gradient : GradObj) (num_replicas : Nat)
    (h : ∀ f cc, gradient ≠ GradObj.tensor f cc) :
    replicate_variable_to_devices gradient num_replicas = none ∧
    between_graph_apply_replicator true gradient num_replicas = none := by
  cases gradient with
  | tensor f cc => exact absurd rfl (h f cc)
  | indexedSlices icc vcc => exact ⟨rfl, rfl⟩
  | other => exact ⟨rfl, rfl⟩

theorem C10_witness :
    replicate_variable_to_devices (GradObj.indexedSlices ∅ ∅) 2 = none ∧
    between_graph_apply_replicator true (GradObj.indexedSlices ∅ ∅) 2 = none :=
  C10_no_sparse_replication (GradObj.indexedSlices ∅ ∅) 2
    (fun f cc h => GradObj.noConfusion h)

end AutoDist
